import Mathlib

/-
Verification of `troubleshooting/create_snapshot.py`, a script that collects
the output of a fixed matrix of `kubectl` inspection commands (cluster-global,
per-namespace, per-pod) into a directory tree and archives it.

The script's core is embedded shallowly:

* `run_cmd` (source lines 94-116): the retry/backoff loop of the command
  executor.  The outcome of each `subprocess.run` invocation is an input
  (`Outcome`): either an exit with a return code and the combined
  stdout/stderr text that the subprocess wrote into the open output file, or
  a hard 60-second timeout with whatever partial text was written before the
  child was killed.  The Python loop opens the output file once (mode "w",
  truncating) before the first attempt and every attempt writes to that same
  handle, so the file is modelled as a list of per-attempt chunks threaded
  through the loop.  `subprocess.run(..., timeout=60)` raises
  `subprocess.TimeoutExpired` when the timeout elapses and `run_cmd` does not
  catch it, so a timed-out attempt is modelled as `Except.error` carrying the
  file content at the moment the exception propagates.

* `get_kubectl_list` (lines 119-149): the listing loop.  Its
  `subprocess.run(cmd, shell=True, capture_output=True)` has no timeout
  argument; each attempt is a pair (returncode, decoded stdout).  On success
  the stdout is `.strip()`ped, `.split(' ')`, and `obj_list.remove('')` drops
  the FIRST empty token when one is present; on exhausted retries the Python
  function falls off with a bare `return`, i.e. it returns `None`, modelled
  as `none`.

* command construction: the Python command catalogs are `str.format`
  templates; they are embedded as lists of `CmdPart`s (literal text and named
  placeholders) and `formatCmd` performs the substitution.

* `main` (lines 152-202): the traversal is embedded as the list of
  (subfolder, command) pairs passed to `run_cmd` for a given cluster state
  (`plannedRunCmds`), and as the list of every externally executed command
  including the listing queries (`allExecutedCmds`).
-/

/-- Source line 46: `CMD_TIMEOUT_SEC = 15` (default of the `--timeout` flag). -/
def CMD_TIMEOUT_SEC : Nat := 15

/-- Source line 47: `BACKOFF_LIMIT = 4`. -/
def BACKOFF_LIMIT : Nat := 4

/-- The observable outcome of one `subprocess.run(cmd, stdout=f, stderr=f,
timeout=60, shell=True)` invocation inside `run_cmd` (lines 105-108): either
the command exits with a return code having written `out` to the output file,
or it overruns the 60-second hard timeout, in which case `subprocess.run`
kills it (a prefix of its output may already be in the file) and raises
`subprocess.TimeoutExpired`. -/
inductive Outcome where
  | exit : Nat → String → Outcome
  | timedOut : String → Outcome
deriving DecidableEq, Repr

/-- The chunk of combined stdout/stderr that an attempt left in the output
file. -/
def Outcome.written : Outcome → String
  | .exit _ out => out
  | .timedOut part => part

/-- What `run_cmd` did when it returned normally: `done` is whether it
printed `[ DONE ]` (as opposed to `[ FAIL ]`), `attempts` how many times the
subprocess was invoked, `totalSleep` the sum of all `time.sleep` arguments,
and `file` the chunks accumulated in the output file, in order. -/
structure RunResult where
  done : Bool
  attempts : Nat
  totalSleep : Nat
  file : List String
deriving DecidableEq, Repr

/-- The `while True` loop of `run_cmd` (lines 101-116), with the mutable
state passed explicitly.  `fuel` is `BACKOFF_LIMIT + 1 - backoff_count`, so
`fuel = 0` is exactly the loop-top test `backoff_count > BACKOFF_LIMIT`
firing (print `[ FAIL ]`, return); `t` is `backoff_timer`, `i` the index of
the next attempt, `s` the accumulated sleep, `file` the output-file content.
On a non-zero exit the code sleeps `backoff_timer` seconds, doubles the
timer and increments the counter; on a timeout `subprocess.run` raises and
nothing catches it. -/
def runCmdLoop (outcomes : Nat → Outcome) :
    Nat → Nat → Nat → Nat → List String → Except (List String) RunResult
  | 0, _, i, s, file => Except.ok ⟨false, i, s, file⟩
  | fuel + 1, t, i, s, file =>
    match outcomes i with
    | .timedOut part => Except.error (file ++ [part])
    | .exit code out =>
      if code = 0 then Except.ok ⟨true, i + 1, s, file ++ [out]⟩
      else runCmdLoop outcomes fuel (t * 2) (i + 1) (s + t) (file ++ [out])

/-- `run_cmd` (lines 94-116) from the point the output file has been opened
(truncated) and the loop entered: `backoff_timer = 1`, `backoff_count = 0`,
empty file. -/
def runCmd (outcomes : Nat → Outcome) : Except (List String) RunResult :=
  runCmdLoop outcomes (BACKOFF_LIMIT + 1) 1 0 0 []

/-- `cmd.replace(' ', '_')` character by character. -/
def pyReplaceSpace : List Char → List Char
  | [] => []
  | c :: cs => (if c = ' ' then '_' else c) :: pyReplaceSpace cs

/-- The file name `run_cmd` derives from a command string (line 95):
`cmd.replace(' ', '_')`. -/
def underscoredCmd (cmd : String) : String :=
  String.mk (pyReplaceSpace cmd.data)

/-- The output path of line 95: `output_dir / subfolder / cmd.replace(' ', '_')`,
with `pathlib`'s `/` rendered as a `"/"` join. -/
def outputPath (output_dir subfolder cmd : String) : String :=
  output_dir ++ "/" ++ subfolder ++ "/" ++ underscoredCmd cmd

/-- Python `str.strip()` whitespace (the ASCII cases). -/
def isPySpace (c : Char) : Bool :=
  c = ' ' || c = '\t' || c = '\n' || c = '\r' || c = '\x0b' || c = '\x0c'

/-- Python `s.strip()`: drop whitespace from both ends. -/
def pyStrip (s : String) : String :=
  String.mk (((s.data.dropWhile isPySpace).reverse.dropWhile isPySpace).reverse)

/-- Helper for `s.split(' ')`: `acc` is the reversed current token. -/
def splitOnSpaceAux : List Char → List Char → List String
  | [], acc => [String.mk acc.reverse]
  | c :: cs, acc =>
    if c = ' ' then String.mk acc.reverse :: splitOnSpaceAux cs []
    else splitOnSpaceAux cs (c :: acc)

/-- Python `s.split(' ')`: split on every single space, keeping the empty
tokens that arise between consecutive separators (`"".split(' ') == ['']`). -/
def pySplitSpace (s : String) : List String :=
  splitOnSpaceAux s.data []

/-- Python `obj_list.remove(x)` guarded by `if x in obj_list`: removes the
first occurrence of `x` when there is one. -/
def removeFirst (x : String) : List String → List String
  | [] => []
  | y :: ys => if y = x then ys else y :: removeFirst x ys

/-- Lines 141-144 of `get_kubectl_list`:
`obj_list = process.stdout.decode().strip().split(' ')` followed by
`if '' in obj_list: obj_list.remove('')`. -/
def parseKubectlOutput (stdout : String) : List String :=
  removeFirst "" (pySplitSpace (pyStrip stdout))

/-- The retry loop of `get_kubectl_list` (lines 133-149).  Each attempt is
the `(returncode, decoded stdout)` of `subprocess.run(cmd, shell=True,
capture_output=True)` — note: no `timeout` argument at this call site.  On
the first zero return code the parsed list is returned; when
`backoff_count > BACKOFF_LIMIT` the Python function executes a bare
`return`, i.e. returns `None` (`none` here), not an empty list. -/
def getKubectlListLoop (outcomes : Nat → Nat × String) :
    Nat → Nat → Option (List String)
  | 0, _ => none
  | fuel + 1, i =>
    if (outcomes i).1 = 0 then some (parseKubectlOutput (outcomes i).2)
    else getKubectlListLoop outcomes fuel (i + 1)

/-- `get_kubectl_list` (lines 119-149) from the point the query command has
been built and the loop entered. -/
def get_kubectl_list (outcomes : Nat → Nat × String) : Option (List String) :=
  getKubectlListLoop outcomes (BACKOFF_LIMIT + 1) 0

/-- `main` line 168 (`for namespace in namespaces_list:`, and likewise the
loops over pods and containers): Python iteration over the value that
`get_kubectl_list` returned.  Iterating over a list yields the list;
iterating over `None` raises `TypeError`. -/
def forIterate : Option (List String) → Except String (List String)
  | some l => Except.ok l
  | none => Except.error "TypeError: NoneType object is not iterable"

/-- The keyword arguments of a `subprocess.run` call site. -/
structure SubprocessCall where
  shell : Bool
  timeoutSec : Option Nat
  captureOutput : Bool
deriving DecidableEq, Repr

/-- The `subprocess.run` call of `run_cmd` (lines 105-108):
`subprocess.run(cmd, stdout=output_file, stderr=output_file, timeout=60,
shell=True)`. -/
def runCmdSubprocessRun : SubprocessCall :=
  ⟨true, some 60, false⟩

/-- The `subprocess.run` call of `get_kubectl_list` (lines 137-138):
`subprocess.run(cmd, shell=True, capture_output=True)` — no `timeout`
keyword. -/
def getKubectlListSubprocessRun : SubprocessCall :=
  ⟨true, none, true⟩

/-- A piece of a Python `str.format` command template: literal text or one of
the named placeholders that appear in the catalogs of lines 49-74 and in the
query template of lines 121-127. -/
inductive CmdPart where
  | lit : String → CmdPart
  | kubeconfigArg : CmdPart
  | timeoutArg : CmdPart
  | namespaceArg : CmdPart
  | podArg : CmdPart
  | containerArg : CmdPart
  | objType : CmdPart
  | jsonpathArg : CmdPart
  | objName : CmdPart
deriving DecidableEq, Repr

/-- The values substituted for the placeholders by one `.format(...)` call. -/
structure FmtArgs where
  kubeconfigArg : String
  timeout : String
  ns : String
  pod : String
  container : String
  objType : String
  jsonpath : String
  objName : String
deriving DecidableEq, Repr

/-- The text a single template part contributes. -/
def CmdPart.subst (a : FmtArgs) : CmdPart → String
  | .lit s => s
  | .kubeconfigArg => a.kubeconfigArg
  | .timeoutArg => a.timeout
  | .namespaceArg => a.ns
  | .podArg => a.pod
  | .containerArg => a.container
  | .objType => a.objType
  | .jsonpathArg => a.jsonpath
  | .objName => a.objName

/-- `template.format(...)`: concatenate the parts after substitution. -/
def formatCmd (a : FmtArgs) : List CmdPart → String
  | [] => ""
  | p :: ps => CmdPart.subst a p ++ formatCmd a ps

/-- The `FmtArgs` of the `cmd.format(...)` calls in `main` feeding `run_cmd`
(lines 165, 171-175, 189-193): only kubeconfig, timeout, namespace, pod and
container are ever passed. -/
def cmdArgs (ka t ns pod container : String) : FmtArgs :=
  ⟨ka, t, ns, pod, container, "", "", ""⟩

/-- The `FmtArgs` of the `.format(...)` call building the listing query in
`get_kubectl_list` (lines 124-127). -/
def listArgs (objType ka t jsonpath objName : String) : FmtArgs :=
  ⟨ka, t, "", "", "", objType, jsonpath, objName⟩

/-- `KUBECTL_GLOBAL_CMDS` (source lines 49-64): the 14 cluster-global
command templates, e.g.
`kubectl version {kubeconfig_arg} --request-timeout {timeout}`. -/
def KUBECTL_GLOBAL_CMDS : List (List CmdPart) :=
  [ [.lit "kubectl version ", .kubeconfigArg, .lit " --request-timeout ", .timeoutArg],
    [.lit "kubectl cluster-info ", .kubeconfigArg, .lit " --request-timeout ", .timeoutArg],
    [.lit "kubectl get clusterroles -o wide ", .kubeconfigArg, .lit " --request-timeout ", .timeoutArg],
    [.lit "kubectl get clusterrolebindings -o wide ", .kubeconfigArg, .lit " --request-timeout ", .timeoutArg],
    [.lit "kubectl get crd -o wide ", .kubeconfigArg, .lit " --request-timeout ", .timeoutArg],
    [.lit "kubectl get nodes -o wide ", .kubeconfigArg, .lit " --request-timeout ", .timeoutArg],
    [.lit "kubectl get clusterroles -o yaml ", .kubeconfigArg, .lit " --request-timeout ", .timeoutArg],
    [.lit "kubectl get clusterrolebindings -o yaml ", .kubeconfigArg, .lit " --request-timeout ", .timeoutArg],
    [.lit "kubectl get crd -o yaml ", .kubeconfigArg, .lit " --request-timeout ", .timeoutArg],
    [.lit "kubectl get nodes -o yaml ", .kubeconfigArg, .lit " --request-timeout ", .timeoutArg],
    [.lit "kubectl describe clusterroles ", .kubeconfigArg, .lit " --request-timeout ", .timeoutArg],
    [.lit "kubectl describe clusterrolebindings ", .kubeconfigArg, .lit " --request-timeout ", .timeoutArg],
    [.lit "kubectl describe crd ", .kubeconfigArg, .lit " --request-timeout ", .timeoutArg],
    [.lit "kubectl describe nodes ", .kubeconfigArg, .lit " --request-timeout ", .timeoutArg] ]

/-- `KUBECTL_PER_NS_CMDS` (lines 66-70): the 3 per-namespace templates. -/
def KUBECTL_PER_NS_CMDS : List (List CmdPart) :=
  [ [.lit "kubectl get all -o wide ", .kubeconfigArg, .lit " --request-timeout ", .timeoutArg,
     .lit " --namespace ", .namespaceArg],
    [.lit "kubectl get all -o yaml ", .kubeconfigArg, .lit " --request-timeout ", .timeoutArg,
     .lit " --namespace ", .namespaceArg],
    [.lit "kubectl describe all ", .kubeconfigArg, .lit " --request-timeout ", .timeoutArg,
     .lit " --namespace ", .namespaceArg] ]

/-- `KUBECTL_PER_POD_CMDS` (lines 72-74): the single per-container log
template `kubectl logs {kubeconfig_arg} {pod} --container {container}
--request-timeout {timeout} --namespace {namespace}`. -/
def KUBECTL_PER_POD_CMDS : List (List CmdPart) :=
  [ [.lit "kubectl logs ", .kubeconfigArg, .lit " ", .podArg,
     .lit " --container ", .containerArg, .lit " --request-timeout ", .timeoutArg,
     .lit " --namespace ", .namespaceArg] ]

/-- The listing-query template of `get_kubectl_list` (lines 121-127):
`kubectl get {obj_type} {kubeconfig_arg} --request-timeout {timeout}
-o jsonpath="{jsonpath}" {obj_name}`. -/
def GET_KUBECTL_LIST_CMD : List CmdPart :=
  [.lit "kubectl get ", .objType, .lit " ", .kubeconfigArg,
   .lit " --request-timeout ", .timeoutArg, .lit " -o jsonpath=\"", .jsonpathArg,
   .lit "\" ", .objName]

/-- The default jsonpath of `get_kubectl_list` (line 120). -/
def JSONPATH_NAMES : String := "\x7b.items[*].metadata.name\x7d"

/-- The jsonpath used to list a pod's containers (line 184). -/
def JSONPATH_CONTAINERS : String := "\x7b.spec.containers[*].name\x7d"

/-- The complete query command of `get_kubectl_list`: the formatted template,
plus `" -n {namespace}"` appended when a (truthy, i.e. non-empty) namespace
was given (lines 128-129). -/
def listQueryCmd (a : FmtArgs) : Option String → String
  | some ns => if ns = "" then formatCmd a GET_KUBECTL_LIST_CMD
               else formatCmd a GET_KUBECTL_LIST_CMD ++ " -n " ++ ns
  | none => formatCmd a GET_KUBECTL_LIST_CMD

/-- The cluster state as the listing queries report it when they succeed:
which namespaces exist, which pods each namespace's listing returns, and
which containers each pod's listing returns. -/
structure Cluster where
  namespaces : List String
  pods : String → List String
  containers : String → String → List String

/-- The (subfolder, command) pairs `main` passes to `run_cmd`, in execution
order (lines 163-196): the 14 global commands into `global`, then per
namespace the 3 namespace commands into `namespaces/{ns}` and, per pod and
container, the log command into `namespaces/{ns}/{pod}`. -/
def plannedRunCmds (ka t : String) (c : Cluster) : List (String × String) :=
  KUBECTL_GLOBAL_CMDS.map (fun parts => ("global", formatCmd (cmdArgs ka t "" "" "") parts)) ++
  c.namespaces.flatMap (fun ns =>
    KUBECTL_PER_NS_CMDS.map
      (fun parts => ("namespaces/" ++ ns, formatCmd (cmdArgs ka t ns "" "") parts)) ++
    (c.pods ns).flatMap (fun pod =>
      (c.containers ns pod).flatMap (fun container =>
        KUBECTL_PER_POD_CMDS.map
          (fun parts =>
            ("namespaces/" ++ ns ++ "/" ++ pod,
             formatCmd (cmdArgs ka t ns pod container) parts)))))

/-- The (subfolder, file name) pairs of the output artifacts: `run_cmd`
derives each file name from the command by line 95. -/
def plannedOutputFiles (ka t : String) (c : Cluster) : List (String × String) :=
  (plannedRunCmds ka t c).map (fun p => (p.1, underscoredCmd p.2))

/-- Every external command one run executes, in order (lines 159-196): the
namespaces listing query, the 14 global commands, then per namespace the 3
namespace commands, the pods listing query and, per pod, the containers
listing query followed by the per-container log commands. -/
def allExecutedCmds (ka t : String) (c : Cluster) : List String :=
  listQueryCmd (listArgs "namespaces" ka t JSONPATH_NAMES "") none ::
  (KUBECTL_GLOBAL_CMDS.map (formatCmd (cmdArgs ka t "" "" "")) ++
   c.namespaces.flatMap (fun ns =>
     KUBECTL_PER_NS_CMDS.map (formatCmd (cmdArgs ka t ns "" "")) ++
     listQueryCmd (listArgs "pods" ka t JSONPATH_NAMES "") (some ns) ::
     (c.pods ns).flatMap (fun pod =>
       listQueryCmd (listArgs "pod" ka t JSONPATH_CONTAINERS pod) (some ns) ::
       (c.containers ns pod).flatMap (fun container =>
         KUBECTL_PER_POD_CMDS.map (formatCmd (cmdArgs ka t ns pod container))))))

/-- Model of Python `pathlib.Path(p).absolute()` on POSIX for a non-empty
`p`: the path itself when already absolute, else the working directory
joined in front. -/
def pyAbsolute (cwd p : String) : String :=
  if p.data.head? = some '/' then p else cwd ++ "/" ++ p

/-- Lines 155-157 of `main`: the `kubeconfig_arg` value substituted into
every command.  An empty (falsy) `--kubeconfig` is passed through unchanged,
a non-empty one becomes `--kubeconfig {Path(kubeconfig).absolute()}`. -/
def mainKubeconfigArg (cwd kubeconfig : String) : String :=
  if kubeconfig = "" then kubeconfig
  else "--kubeconfig " ++ pyAbsolute cwd kubeconfig

/-- A cluster whose namespaces listing returns nothing. -/
def emptyCluster : Cluster :=
  ⟨[], fun _ => [], fun _ _ => []⟩

/-- A cluster with one namespace `default` holding one pod `web-0` with one
container `app`. -/
def oneNsCluster : Cluster :=
  ⟨["default"], fun _ => ["web-0"], fun _ _ => ["app"]⟩

/-- `pyReplaceSpace` is the pointwise space-to-underscore map. -/
theorem pyReplaceSpace_map (l : List Char) :
    pyReplaceSpace l = l.map fun c => if c = ' ' then '_' else c := by
  induction l with
  | nil => rfl
  | cons c cs ih => simp [pyReplaceSpace, ih]

/-- `list.remove(x)` drops exactly one occurrence: the count of `x` goes
down by one (and stays zero when `x` was absent). -/
theorem count_removeFirst (x : String) (l : List String) :
    (removeFirst x l).count x = l.count x - 1 := by
  induction l with
  | nil => rfl
  | cons y ys ih =>
    by_cases h : y = x
    · subst h
      simp [removeFirst]
    · rw [removeFirst, if_neg h, List.count_cons, List.count_cons, ih]
      simp [h]

/-- The geometric sum of the backoff delays. -/
theorem geomSumTwo (k : Nat) : (∑ i ∈ Finset.range k, 2 ^ i) = 2 ^ k - 1 := by
  induction k with
  | zero => rfl
  | succ k ih =>
    have h1 : 1 ≤ 2 ^ k := Nat.one_le_two_pow
    rw [Finset.sum_range_succ, ih, pow_succ]
    omega

/-- Peeling the first attempt off a map over attempt indices. -/
theorem writtenMap_shift (outcomes : Nat → Outcome) (n i : Nat) :
    (List.range (n + 1)).map (fun j => (outcomes (i + j)).written) =
      (outcomes i).written :: ((List.range n).map fun j => (outcomes (i + 1 + j)).written) := by
  have hshift : ∀ j : Nat, i + 1 + j = i + (j + 1) := fun j => by omega
  simp [List.range_succ_eq_map, List.map_map, Function.comp, hshift]

/-- If the next `n` attempts exit non-zero and attempt `i + n` exits zero,
the loop returns `[ DONE ]` after `n + 1` further invocations, having slept
`t * (2 ^ n - 1)` more (the timer doubles after each failure) and appended
each attempt's output to the file. -/
theorem runCmdLoop_success (outcomes : Nat → Outcome) :
    ∀ (n fuel t i s : Nat) (file : List String),
      n < fuel →
      (∀ j, j < n → ∃ c out, outcomes (i + j) = Outcome.exit c out ∧ c ≠ 0) →
      (∃ out, outcomes (i + n) = Outcome.exit 0 out) →
      runCmdLoop outcomes fuel t i s file =
        Except.ok ⟨true, i + n + 1, s + t * (2 ^ n - 1),
          file ++ (List.range (n + 1)).map fun j => (outcomes (i + j)).written⟩ := by
  intro n
  induction n with
  | zero =>
    intro fuel t i s file hfuel _ hsucc
    obtain ⟨out, hout⟩ := hsucc
    cases fuel with
    | zero => omega
    | succ fuel =>
      rw [Nat.add_zero] at hout
      simp [runCmdLoop, hout, Outcome.written, List.range_succ]
  | succ n ih =>
    intro fuel t i s file hfuel hfail hsucc
    cases fuel with
    | zero => omega
    | succ fuel =>
      obtain ⟨c, out, hout, hc⟩ := hfail 0 (Nat.succ_pos n)
      rw [Nat.add_zero] at hout
      have hfail' : ∀ j, j < n → ∃ c out, outcomes (i + 1 + j) = Outcome.exit c out ∧ c ≠ 0 := by
        intro j hj
        have h := hfail (j + 1) (by omega)
        rwa [show i + (j + 1) = i + 1 + j by omega] at h
      have hsucc' : ∃ out, outcomes (i + 1 + n) = Outcome.exit 0 out := by
        rwa [show i + (n + 1) = i + 1 + n by omega] at hsucc
      have hrec := ih fuel (t * 2) (i + 1) (s + t) (file ++ [out]) (by omega) hfail' hsucc'
      have hstep : runCmdLoop outcomes (fuel + 1) t i s file
          = runCmdLoop outcomes fuel (t * 2) (i + 1) (s + t) (file ++ [out]) := by
        simp [runCmdLoop, hout, hc]
      rw [hstep, hrec]
      congr 1
      congr 1
      · omega
      · obtain ⟨b, hb⟩ : ∃ b, 2 ^ n = b + 1 :=
          ⟨2 ^ n - 1, by have := Nat.one_le_two_pow (n := n); omega⟩
        rw [pow_succ, hb, show (b + 1) * 2 - 1 = 2 * b + 1 by omega,
          Nat.add_sub_cancel]
        ring
      · rw [List.append_assoc]
        congr 1
        conv_rhs => rw [writtenMap_shift]
        rw [List.singleton_append, hout]
        rfl

/-- If every attempt the remaining fuel allows exits non-zero, the loop ends
with `[ FAIL ]` after using all attempts, sleeping after every one of them. -/
theorem runCmdLoop_allfail (outcomes : Nat → Outcome) :
    ∀ (fuel t i s : Nat) (file : List String),
      (∀ j, j < fuel → ∃ c out, outcomes (i + j) = Outcome.exit c out ∧ c ≠ 0) →
      runCmdLoop outcomes fuel t i s file =
        Except.ok ⟨false, i + fuel, s + t * (2 ^ fuel - 1),
          file ++ (List.range fuel).map fun j => (outcomes (i + j)).written⟩ := by
  intro fuel
  induction fuel with
  | zero =>
    intro t i s file _
    simp [runCmdLoop]
  | succ fuel ih =>
    intro t i s file hfail
    obtain ⟨c, out, hout, hc⟩ := hfail 0 (Nat.succ_pos fuel)
    rw [Nat.add_zero] at hout
    have hfail' : ∀ j, j < fuel → ∃ c out, outcomes (i + 1 + j) = Outcome.exit c out ∧ c ≠ 0 := by
      intro j hj
      have h := hfail (j + 1) (by omega)
      rwa [show i + (j + 1) = i + 1 + j by omega] at h
    have hstep : runCmdLoop outcomes (fuel + 1) t i s file
        = runCmdLoop outcomes fuel (t * 2) (i + 1) (s + t) (file ++ [out]) := by
      simp [runCmdLoop, hout, hc]
    rw [hstep, ih (t * 2) (i + 1) (s + t) (file ++ [out]) hfail']
    congr 1
    congr 1
    · omega
    · obtain ⟨b, hb⟩ : ∃ b, 2 ^ fuel = b + 1 :=
        ⟨2 ^ fuel - 1, by have := Nat.one_le_two_pow (n := fuel); omega⟩
      rw [pow_succ, hb, show (b + 1) * 2 - 1 = 2 * b + 1 by omega,
        Nat.add_sub_cancel]
      ring
    · rw [List.append_assoc]
      congr 1
      conv_rhs => rw [writtenMap_shift]
      rw [List.singleton_append, hout]
      rfl

/-- Whenever the loop returns normally it has invoked the subprocess at most
`fuel` more times. -/
theorem runCmdLoop_attempts_le (outcomes : Nat → Outcome) :
    ∀ (fuel t i s : Nat) (file : List String) (r : RunResult),
      runCmdLoop outcomes fuel t i s file = Except.ok r → r.attempts ≤ i + fuel := by
  intro fuel
  induction fuel with
  | zero =>
    intro t i s file r h
    rw [runCmdLoop] at h
    cases h
    show i ≤ i + 0
    omega
  | succ fuel ih =>
    intro t i s file r h
    rw [runCmdLoop] at h
    split at h
    · exact Except.noConfusion h
    · split at h
      · injection h with h
        subst h
        show i + 1 ≤ i + (fuel + 1)
        omega
      · have hr := ih _ _ _ _ r h
        omega

/-- Does `l` start with `pat`? -/
def listStartsWith : List Char → List Char → Bool
  | [], _ => true
  | _ :: _, [] => false
  | p :: ps, c :: cs => p = c && listStartsWith ps cs

/-- Does `l` contain `pat` as a contiguous substring? -/
def listContainsSub (pat : List Char) : List Char → Bool
  | [] => pat.isEmpty
  | c :: cs => listStartsWith pat (c :: cs) || listContainsSub pat cs

theorem listStartsWith_iff (pat : List Char) :
    ∀ l, listStartsWith pat l = true ↔ ∃ r, l = pat ++ r := by
  induction pat with
  | nil =>
    intro l
    simp [listStartsWith]
  | cons p ps ih =>
    intro l
    cases l with
    | nil =>
      simp [listStartsWith]
    | cons c cs =>
      rw [listStartsWith]
      simp only [Bool.and_eq_true, decide_eq_true_eq, ih cs]
      constructor
      · rintro ⟨rfl, r, rfl⟩
        exact ⟨r, rfl⟩
      · rintro ⟨r, hr⟩
        rw [List.cons_append] at hr
        cases hr
        exact ⟨rfl, r, rfl⟩

theorem listContainsSub_iff (pat : List Char) :
    ∀ l, listContainsSub pat l = true ↔ ∃ A B, l = A ++ pat ++ B := by
  intro l
  induction l with
  | nil =>
    rw [listContainsSub]
    constructor
    · intro h
      refine ⟨[], [], ?_⟩
      rw [List.isEmpty_iff.mp h]
      rfl
    · rintro ⟨A, B, hAB⟩
      have h0 := congrArg List.length hAB
      simp at h0
      have hpat : pat = [] := List.eq_nil_of_length_eq_zero (by omega)
      rw [hpat]
      rfl
  | cons c cs ih =>
    rw [listContainsSub]
    simp only [Bool.or_eq_true, listStartsWith_iff, ih]
    constructor
    · rintro (⟨r, hr⟩ | ⟨A, B, hAB⟩)
      · exact ⟨[], r, by simp [hr]⟩
      · exact ⟨c :: A, B, by simp [hAB]⟩
    · rintro ⟨A, B, hAB⟩
      cases A with
      | nil =>
        left
        exact ⟨B, by simpa using hAB⟩
      | cons a as =>
        right
        rw [List.cons_append, List.cons_append] at hAB
        cases hAB
        exact ⟨as, B, rfl⟩

/-- If a template mentions the `{kubeconfig_arg}` placeholder, the formatted
command contains the substituted value as a contiguous substring. -/
theorem formatCmd_kubeconfig (a : FmtArgs) (parts : List CmdPart)
    (h : CmdPart.kubeconfigArg ∈ parts) :
    ∃ A B, (formatCmd a parts).data = A ++ a.kubeconfigArg.data ++ B := by
  induction parts with
  | nil => cases h
  | cons p ps ih =>
    rcases List.mem_cons.mp h with rfl | hmem
    · exact ⟨[], (formatCmd a ps).data,
        by rw [formatCmd, String.data_append]; rfl⟩
    · obtain ⟨A, B, hAB⟩ := ih hmem
      exact ⟨(CmdPart.subst a p).data ++ A, B,
        by rw [formatCmd, String.data_append, hAB]; simp [List.append_assoc]⟩

/-- The full listing query likewise contains the kubeconfig argument,
whether or not the `-n {namespace}` suffix is appended. -/
theorem listQueryCmd_kubeconfig (a : FmtArgs) (nsOpt : Option String) :
    ∃ A B, (listQueryCmd a nsOpt).data = A ++ a.kubeconfigArg.data ++ B := by
  obtain ⟨A, B, hAB⟩ := formatCmd_kubeconfig a GET_KUBECTL_LIST_CMD (by decide)
  cases nsOpt with
  | none => exact ⟨A, B, hAB⟩
  | some ns =>
    rw [listQueryCmd]
    by_cases hns : ns = ""
    · rw [if_pos hns]
      exact ⟨A, B, hAB⟩
    · rw [if_neg hns]
      refine ⟨A, B ++ (" -n " ++ ns).data, ?_⟩
      rw [String.data_append, String.data_append, hAB]
      simp [List.append_assoc]

/-- Every template of the three `run_cmd` catalogs names `{kubeconfig_arg}`. -/
theorem catalogs_mention_kubeconfig :
    ∀ parts ∈ KUBECTL_GLOBAL_CMDS ++ KUBECTL_PER_NS_CMDS ++ KUBECTL_PER_POD_CMDS,
      CmdPart.kubeconfigArg ∈ parts := by decide

/-- Claim C1 (code-bug evidence): when every attempt of a listing query
exits non-zero, `get_kubectl_list` falls off its loop with a bare `return`,
i.e. yields `None` — not an empty sequence — and `main`'s subsequent
`for namespace in namespaces_list` raises `TypeError`, aborting the run
instead of degrading gracefully as the claim states. -/
theorem get_kubectl_list_allfail_typeerror :
    get_kubectl_list (fun _ => (1, "")) = none ∧
    (get_kubectl_list (fun _ => (1, ""))).isSome = false ∧
    forIterate (get_kubectl_list (fun _ => (1, ""))) =
      Except.error "TypeError: NoneType object is not iterable" :=
  ⟨rfl, rfl, rfl⟩

/-- Claim C2 (code-bug evidence): an attempt that exceeds the fixed
60-second subprocess timeout makes `subprocess.run` raise `TimeoutExpired`,
which `run_cmd` does not catch: the loop ends with the exception propagating
to the caller (`Except.error`), not with a normal return that counts the
timeout as one failed backoff attempt. -/
theorem runCmd_timeout_raises :
    runCmd (fun _ => Outcome.timedOut "partial output") =
      Except.error ["partial output"] ∧
    (runCmd (fun _ => Outcome.timedOut "partial output")).isOk = false :=
  ⟨rfl, rfl⟩

/-- Claim C7: the output file path is the output root joined with the
subfolder and the command string with every space character replaced by an
underscore; in particular `kubectl get all -o wide --namespace foo` maps to
the file name `kubectl_get_all_-o_wide_--namespace_foo`. -/
theorem output_path_rule (output_dir subfolder cmd : String) :
    outputPath output_dir subfolder cmd =
      output_dir ++ "/" ++ subfolder ++ "/" ++ underscoredCmd cmd ∧
    (underscoredCmd cmd).data = cmd.data.map (fun c => if c = ' ' then '_' else c) ∧
    underscoredCmd "kubectl get all -o wide --namespace foo" =
      "kubectl_get_all_-o_wide_--namespace_foo" :=
  ⟨rfl, pyReplaceSpace_map cmd.data, rfl⟩

/-- Witness for C7 at a concrete input. -/
theorem output_path_rule_witness :
    outputPath "/tmp/out" "global" "kubectl version" =
      "/tmp/out/global/kubectl_version" := by
  have h := (output_path_rule "/tmp/out" "global" "kubectl version").1
  rw [h]
  rfl

/-- Claim C8: the command-to-file-name map is not injective — two distinct
commands differing only in a space versus an underscore produce the same
file name and so the same output path. -/
theorem underscore_collision :
    "kubectl get pods" ≠ "kubectl get_pods" ∧
    underscoredCmd "kubectl get pods" = underscoredCmd "kubectl get_pods" ∧
    outputPath "/tmp/out" "global" "kubectl get pods" =
      outputPath "/tmp/out" "global" "kubectl get_pods" :=
  ⟨by decide, by decide, by decide⟩

/-- Claim C5 (counterexample): the Object Lister's `subprocess.run` call
(lines 137-138) passes no `timeout` at all, so the two call sites do not
share the fixed 60-unit hard timeout the claim asserts for every external
command execution. -/
theorem lister_has_no_hard_timeout :
    getKubectlListSubprocessRun.timeoutSec ≠ some 60 ∧
    getKubectlListSubprocessRun.timeoutSec ≠ runCmdSubprocessRun.timeoutSec := by
  decide

/-- Claim C5 (amended): both call sites are blocking shell invocations; the
Command Executor's carries the fixed hard timeout of 60 units (a literal,
independent of the `--timeout` flag, which only lands inside the command
string), while the Object Lister's subprocess call has no hard timeout. -/
theorem subprocess_call_timeouts :
    runCmdSubprocessRun.shell = true ∧
    runCmdSubprocessRun.timeoutSec = some 60 ∧
    getKubectlListSubprocessRun.shell = true ∧
    getKubectlListSubprocessRun.timeoutSec = none :=
  ⟨rfl, rfl, rfl, rfl⟩

/-- Claim C4 (counterexample): on a successful query whose stdout has two
runs of doubled spaces, the returned sequence still contains an empty token:
only the first empty token is removed (`list.remove`), not all of them. -/
theorem lister_keeps_second_empty_token :
    ∃ l, get_kubectl_list (fun _ => (0, "ns1  ns2  ns3")) = some l ∧ "" ∈ l :=
  ⟨["ns1", "ns2", "", "ns3"], rfl, by decide⟩

/-- Claim C4 (amended): on success the Object Lister returns stdout
stripped, split on single spaces, with only the FIRST empty token removed;
the spec's example `ns1 ns2  ns3` (one doubled separator) therefore parses
to `[ns1, ns2, ns3]`, and in general the count of empty tokens drops by
exactly one. -/
theorem lister_split_first_empty_removed :
    get_kubectl_list (fun _ => (0, "ns1 ns2  ns3")) = some ["ns1", "ns2", "ns3"] ∧
    (∀ s : String, parseKubectlOutput s = removeFirst "" (pySplitSpace (pyStrip s))) ∧
    (∀ s : String,
      (parseKubectlOutput s).count "" = (pySplitSpace (pyStrip s)).count "" - 1) :=
  ⟨rfl, fun _ => rfl, fun _ => count_removeFirst "" _⟩

/-- Claim C3: `run_cmd` performs at most `BACKOFF_LIMIT + 1 = 5` subprocess
invocations; when the first `k` attempts exit non-zero (`k ≤ 4`) and attempt
`k + 1` exits 0 it reports success after exactly `k + 1` attempts having
slept `1 + 2 + ... + 2 ^ (k - 1)` seconds (the timer starts at 1 and doubles
after each failure); when all 5 attempts exit non-zero it reports failure
after exactly 5 attempts. -/
theorem runCmd_backoff (outcomes : Nat → Outcome) :
    BACKOFF_LIMIT + 1 = 5 ∧
    (∀ r, runCmd outcomes = Except.ok r → r.attempts ≤ 5) ∧
    (∀ k, k ≤ BACKOFF_LIMIT →
      (∀ j, j < k → ∃ c out, outcomes j = Outcome.exit c out ∧ c ≠ 0) →
      (∃ out, outcomes k = Outcome.exit 0 out) →
      ∃ r, runCmd outcomes = Except.ok r ∧ r.done = true ∧ r.attempts = k + 1 ∧
        r.totalSleep = ∑ i ∈ Finset.range k, 2 ^ i) ∧
    ((∀ j, j < 5 → ∃ c out, outcomes j = Outcome.exit c out ∧ c ≠ 0) →
      ∃ r, runCmd outcomes = Except.ok r ∧ r.done = false ∧ r.attempts = 5) := by
  refine ⟨rfl, ?_, ?_, ?_⟩
  · intro r h
    exact runCmdLoop_attempts_le outcomes (BACKOFF_LIMIT + 1) 1 0 0 [] r h
  · intro k hk hfail hsucc
    have h := runCmdLoop_success outcomes k (BACKOFF_LIMIT + 1) 1 0 0 []
      (by omega) (by simpa using hfail) (by simpa using hsucc)
    refine ⟨_, h, rfl, ?_, ?_⟩
    · show 0 + k + 1 = k + 1
      omega
    · show 0 + 1 * (2 ^ k - 1) = _
      rw [geomSumTwo]
      omega
  · intro hfail
    have h := runCmdLoop_allfail outcomes (BACKOFF_LIMIT + 1) 1 0 0 []
      (by simpa using hfail)
    exact ⟨_, h, rfl, rfl⟩

/-- Witness for C3: two failures then a success give status DONE, 3
attempts, total sleep `1 + 2 = 3`. -/
theorem runCmd_backoff_witness :
    ∃ r, runCmd (fun i => if i < 2 then Outcome.exit 1 "err" else Outcome.exit 0 "ok")
        = Except.ok r ∧ r.done = true ∧ r.attempts = 3 ∧
        r.totalSleep = ∑ i ∈ Finset.range 2, 2 ^ i :=
  (runCmd_backoff (fun i => if i < 2 then Outcome.exit 1 "err" else Outcome.exit 0 "ok")).2.2.1
    2 (by decide)
    (fun j hj => ⟨1, "err", by simp [hj], by decide⟩)
    ⟨"ok", by simp⟩

/-- Claim C9: the output file is opened (truncated) once before the first
attempt and each attempt appends its combined output to the same handle: on
`k` failures followed by a success the file holds the outputs of all `k + 1`
attempts in order (not only the last), and when every attempt fails the file
still exists, holding all 5 attempts' outputs. -/
theorem runCmd_file_accumulation (outcomes : Nat → Outcome) :
    (∀ k, k ≤ BACKOFF_LIMIT →
      (∀ j, j < k → ∃ c out, outcomes j = Outcome.exit c out ∧ c ≠ 0) →
      (∃ out, outcomes k = Outcome.exit 0 out) →
      ∃ r, runCmd outcomes = Except.ok r ∧
        r.file = (List.range (k + 1)).map fun j => (outcomes j).written) ∧
    ((∀ j, j < 5 → ∃ c out, outcomes j = Outcome.exit c out ∧ c ≠ 0) →
      ∃ r, runCmd outcomes = Except.ok r ∧ r.done = false ∧
        r.file = (List.range 5).map fun j => (outcomes j).written) := by
  constructor
  · intro k hk hfail hsucc
    have h := runCmdLoop_success outcomes k (BACKOFF_LIMIT + 1) 1 0 0 []
      (by omega) (by simpa using hfail) (by simpa using hsucc)
    refine ⟨_, h, ?_⟩
    simp
  · intro hfail
    have h := runCmdLoop_allfail outcomes (BACKOFF_LIMIT + 1) 1 0 0 []
      (by simpa using hfail)
    refine ⟨_, h, rfl, ?_⟩
    simp
    rfl

/-- Witness for C9: one failure then a success leave both attempts' outputs
in the file, in order. -/
theorem runCmd_file_accumulation_witness :
    ∃ r, runCmd (fun i => if i < 1 then Outcome.exit 1 "err0" else Outcome.exit 0 "ok1")
        = Except.ok r ∧
      r.file = (List.range 2).map fun j =>
        ((fun i => if i < 1 then Outcome.exit 1 "err0" else Outcome.exit 0 "ok1") j).written :=
  (runCmd_file_accumulation
      (fun i => if i < 1 then Outcome.exit 1 "err0" else Outcome.exit 0 "ok1")).1
    1 (by decide)
    (fun j hj => ⟨1, "err0", by simp [hj], by decide⟩)
    ⟨"ok1", by simp⟩

/-- Claim C6: with an empty namespaces listing the run writes exactly the 14
global files, all under `global`, with pairwise distinct paths and nothing
under `namespaces/`; with one namespace `default` holding one pod `web-0`
with one container `app` (all listings succeeding) it writes 14 files under
`global`, 3 under `namespaces/default` and 1 under
`namespaces/default/web-0`, 18 pairwise distinct paths in all.  (Arguments
as a default run: empty kubeconfig, `--timeout 15` rendered as `15s`.) -/
theorem traversal_output_counts :
    ((plannedOutputFiles "" "15s" emptyCluster).length = 14 ∧
     (∀ p ∈ plannedOutputFiles "" "15s" emptyCluster, p.1 = "global") ∧
     (plannedOutputFiles "" "15s" emptyCluster).Nodup) ∧
    (((plannedOutputFiles "" "15s" oneNsCluster).filter
        (fun p => p.1 == "global")).length = 14 ∧
     ((plannedOutputFiles "" "15s" oneNsCluster).filter
        (fun p => p.1 == "namespaces/default")).length = 3 ∧
     ((plannedOutputFiles "" "15s" oneNsCluster).filter
        (fun p => p.1 == "namespaces/default/web-0")).length = 1 ∧
     (plannedOutputFiles "" "15s" oneNsCluster).length = 18 ∧
     (plannedOutputFiles "" "15s" oneNsCluster).Nodup) := by
  decide

/-- Every command a run executes — the listing queries included — embeds the
`kubeconfig_arg` string as a contiguous substring, since every template of
the catalogs and the listing-query template names `{kubeconfig_arg}`. -/
theorem allExecutedCmds_kubeconfig (ka t : String) (c : Cluster) :
    ∀ cmd ∈ allExecutedCmds ka t c, ∃ A B, cmd.data = A ++ ka.data ++ B := by
  intro cmd hmem
  rw [allExecutedCmds] at hmem
  rcases List.mem_cons.mp hmem with rfl | hmem
  · exact listQueryCmd_kubeconfig (listArgs "namespaces" ka t JSONPATH_NAMES "") none
  rcases List.mem_append.mp hmem with hmem | hmem
  · obtain ⟨parts, hp, rfl⟩ := List.mem_map.mp hmem
    exact formatCmd_kubeconfig _ parts (catalogs_mention_kubeconfig parts (by simp [hp]))
  obtain ⟨ns, hns, hmem⟩ := List.mem_flatMap.mp hmem
  rcases List.mem_append.mp hmem with hmem | hmem
  · obtain ⟨parts, hp, rfl⟩ := List.mem_map.mp hmem
    exact formatCmd_kubeconfig _ parts (catalogs_mention_kubeconfig parts (by simp [hp]))
  rcases List.mem_cons.mp hmem with rfl | hmem
  · exact listQueryCmd_kubeconfig _ _
  obtain ⟨pod, hpod, hmem⟩ := List.mem_flatMap.mp hmem
  rcases List.mem_cons.mp hmem with rfl | hmem
  · exact listQueryCmd_kubeconfig _ _
  obtain ⟨container, hcont, hmem⟩ := List.mem_flatMap.mp hmem
  obtain ⟨parts, hp, rfl⟩ := List.mem_map.mp hmem
  exact formatCmd_kubeconfig _ parts (catalogs_mention_kubeconfig parts (by simp [hp]))

/-- Claim C10: an empty `--kubeconfig` (or empty `KUBECONFIG` default) is
substituted as the empty string, so no `--kubeconfig` flag appears in any
executed command (shown on a concrete default run); a non-empty one is first
absolutised by `pathlib.Path(...).absolute()` and then every executed
command — inspection commands and listing queries alike — contains
`--kubeconfig ` followed by the absolutised path. -/
theorem kubeconfig_flag_propagation (cwd kc t : String) (c : Cluster) :
    mainKubeconfigArg cwd "" = "" ∧
    (kc ≠ "" → mainKubeconfigArg cwd kc = "--kubeconfig " ++ pyAbsolute cwd kc) ∧
    (kc ≠ "" → ∀ cmd ∈ allExecutedCmds (mainKubeconfigArg cwd kc) t c,
      ∃ A B, cmd.data = A ++ ("--kubeconfig " ++ pyAbsolute cwd kc).data ++ B) ∧
    (∀ cmd ∈ allExecutedCmds (mainKubeconfigArg "/root" "") "15s" oneNsCluster,
      ¬ ∃ A B, cmd.data = A ++ ("--kubeconfig").data ++ B) := by
  refine ⟨rfl, ?_, ?_, ?_⟩
  · intro hkc
    rw [mainKubeconfigArg, if_neg hkc]
  · intro hkc cmd hmem
    have hka : mainKubeconfigArg cwd kc = "--kubeconfig " ++ pyAbsolute cwd kc := by
      rw [mainKubeconfigArg, if_neg hkc]
    rw [← hka]
    exact allExecutedCmds_kubeconfig _ t c cmd hmem
  · intro cmd hmem hex
    have hc := (listContainsSub_iff ("--kubeconfig").data cmd.data).mpr hex
    have hall : ∀ x ∈ allExecutedCmds (mainKubeconfigArg "/root" "") "15s" oneNsCluster,
        listContainsSub ("--kubeconfig").data x.data = false := by decide
    rw [hall cmd hmem] at hc
    exact Bool.noConfusion hc

/-- Witness for C10: a concrete relative kubeconfig path is absolutised and
prefixed with the flag. -/
theorem kubeconfig_flag_witness :
    mainKubeconfigArg "/home/user" "kube/config" =
      "--kubeconfig /home/user/kube/config" := by
  have h := (kubeconfig_flag_propagation "/home/user" "kube/config" "15s"
    oneNsCluster).2.1 (by decide)
  rw [h]
  rfl
